import Mathlib

/-!
Verification development for the ReBAC authorization core of the
o2_visdata repository. The definitions below are a shallow embedding of
the Rust sources under src/openfga: the pure string codec
(model/schema.rs), the resource catalog (model/resources.rs), the
permission checker (service/checker.rs), the role service
(service/roles.rs), the group service (service/groups.rs), the tuple
builders (service/tuples.rs), and the HTTP client's read/write logic
(client.rs). The external tuple store is modelled as a list of tuple
keys; the networked client's read is modelled by its filter semantics
and its write by the request it issues plus the store transformation
the backend applies.

String operations are implemented over the character list of a string
so that every definition reduces by kernel computation: strToLower and
eqIgnoreAsciiCase model Rust's to_lowercase / eq_ignore_ascii_case
(ASCII range), strStartsWith models str::starts_with, dropPrefixOpt
models str::strip_prefix, and splitOnceColon models str::split_once of
the colon character.
-/

/-- ASCII lowercase of a string, character by character. Models Rust
to_lowercase on the ASCII inputs this codebase uses. -/
def strToLower (s : String) : String :=
  String.mk (s.data.map Char.toLower)

/-- ASCII uppercase of a string, character by character. Models Rust
to_uppercase on the ASCII inputs this codebase uses. -/
def strToUpper (s : String) : String :=
  String.mk (s.data.map Char.toUpper)

/-- Case-insensitive ASCII string equality, modelling Rust
str::eq_ignore_ascii_case. -/
def eqIgnoreAsciiCase (a b : String) : Bool :=
  strToLower a == strToLower b

/-- Models Rust str::starts_with for string patterns. -/
def strStartsWith (s p : String) : Bool :=
  p.data.isPrefixOf s.data

/-- Models Rust str::strip_prefix: the remainder after the pattern when
the pattern is a prefix, otherwise nothing. -/
def dropPrefixOpt (s p : String) : Option String :=
  if p.data.isPrefixOf s.data then some (String.mk (s.data.drop p.data.length))
  else none

/-- Helper for splitOnceColon, walking the character list. -/
def splitOnceColonAux : List Char → List Char → Option (String × String)
  | [], _ => none
  | c :: rest, acc =>
    if c = ':' then some (String.mk acc.reverse, String.mk rest)
    else splitOnceColonAux rest (c :: acc)

/-- Models Rust str::split_once of the colon character: the parts before
and after the first colon, or nothing when no colon is present. -/
def splitOnceColon (s : String) : Option (String × String) :=
  splitOnceColonAux s.data []

/-- OpenFGA tuple key, from src/openfga/types.rs (TupleKey). -/
structure TupleKey where
  user : String
  relation : String
  object : String
deriving DecidableEq, Repr

/-- Read filter, from src/openfga/types.rs (TupleKeyFilter). -/
structure TupleKeyFilter where
  user : Option String
  relation : Option String
  object : Option String
deriving DecidableEq, Repr

/-- Permission enumeration, from src/openfga/types.rs (Permission). -/
inductive Permission where
  | AllowAll
  | AllowList
  | AllowGet
  | AllowPost
  | AllowPut
  | AllowDelete
deriving DecidableEq, Repr

/-- Permission::from_method from src/openfga/types.rs: HTTP method and
list flag to permission; unknown methods default to AllowGet. -/
def Permission.from_method (method : String) (is_list : Bool) : Permission :=
  let m := strToUpper method
  if m == "GET" then (if is_list then .AllowList else .AllowGet)
  else if m == "POST" then .AllowPost
  else if m == "PUT" || m == "PATCH" then .AllowPut
  else if m == "DELETE" then .AllowDelete
  else .AllowGet

/-- Permission::to_relation from src/openfga/types.rs: internal check
relation name for each permission. -/
def Permission.to_relation : Permission → String
  | .AllowAll => "admin"
  | .AllowList => "can_list"
  | .AllowGet => "can_read"
  | .AllowPost => "can_create"
  | .AllowPut => "can_update"
  | .AllowDelete => "can_delete"

/-- org_type from src/openfga/model/schema.rs. -/
def org_type (org_id : String) : String :=
  "org:" ++ org_id

/-- user_type from src/openfga/model/schema.rs. -/
def user_type (user_email : String) : String :=
  "user:" ++ user_email

/-- role_type from src/openfga/model/schema.rs. -/
def role_type (org_id role_name : String) : String :=
  "role:" ++ org_id ++ "_" ++ role_name

/-- group_type from src/openfga/model/schema.rs. -/
def group_type (org_id group_name : String) : String :=
  "group:" ++ org_id ++ "_" ++ group_name

/-- resource_object from src/openfga/model/schema.rs: the org id is not
embedded in the object string. -/
def resource_object (_org_id resource_type entity_id : String) : String :=
  resource_type ++ ":" ++ entity_id

/-- resource_object_all from src/openfga/model/schema.rs: wildcard
object for all entities of a type in an org. -/
def resource_object_all (org_id resource_type : String) : String :=
  resource_type ++ ":_all_" ++ org_id

/-- Resource descriptor, from src/openfga/types.rs (Resource). -/
structure Resource where
  key : String
  label : String
  parent : Option String
  order : Int
  visible : Bool
  top_level : Bool
  has_entities : Bool
deriving DecidableEq, Repr

/-- The resource helper from src/openfga/model/resources.rs: top_level
is derived from the absence of a parent. -/
def mkResource (key label : String) (parent : Option String) (order : Int)
    (visible has_entities : Bool) : Resource :=
  { key := key, label := label, parent := parent, order := order,
    visible := visible, top_level := parent.isNone, has_entities := has_entities }

/-- RESOURCE_TYPES from src/openfga/model/resources.rs, as an
association list from key to resource descriptor. -/
def RESOURCE_TYPES : List (String × Resource) :=
  [ ("user", mkResource "user" "Users" none 1 true true),
    ("group", mkResource "group" "Groups" none 2 true true),
    ("role", mkResource "role" "Roles" none 3 true true),
    ("org", mkResource "org" "Organizations" none 4 true false),
    ("stream", mkResource "stream" "Streams" none 10 false true),
    ("logs", mkResource "logs" "Logs" (some "stream") 11 true true),
    ("metrics", mkResource "metrics" "Metrics" (some "stream") 12 true true),
    ("traces", mkResource "traces" "Traces" (some "stream") 13 true true),
    ("metadata", mkResource "metadata" "Metadata" (some "stream") 14 false true),
    ("index", mkResource "index" "Index" (some "stream") 15 true true),
    ("dfolder", mkResource "dfolder" "Dashboard Folders" none 20 true true),
    ("dashboard", mkResource "dashboard" "Dashboards" (some "dfolder") 21 true true),
    ("template", mkResource "template" "Templates" none 22 true true),
    ("savedviews", mkResource "savedviews" "Saved Views" none 23 true true),
    ("afolder", mkResource "afolder" "Alert Folders" none 30 true true),
    ("alert", mkResource "alert" "Alerts" (some "afolder") 31 true true),
    ("destination", mkResource "destination" "Destinations" none 32 true true),
    ("rfolder", mkResource "rfolder" "Report Folders" none 40 true true),
    ("report", mkResource "report" "Reports" (some "rfolder") 41 true true),
    ("function", mkResource "function" "Functions" none 50 true true),
    ("pipeline", mkResource "pipeline" "Pipelines" none 51 true true),
    ("settings", mkResource "settings" "Settings" none 60 true false),
    ("kv", mkResource "kv" "KV Store" none 61 true true),
    ("enrichment_table", mkResource "enrichment_table" "Enrichment Tables" none 62 true true),
    ("summary", mkResource "summary" "Summary" none 63 true true),
    ("syslog-route", mkResource "syslog-route" "Syslog Routes" none 64 true true),
    ("passcode", mkResource "passcode" "Passcodes" none 70 true true),
    ("rumtoken", mkResource "rumtoken" "RUM Tokens" none 71 true true),
    ("service_accounts", mkResource "service_accounts" "Service Accounts" none 72 true true),
    ("cipher_keys", mkResource "cipher_keys" "Cipher Keys" none 73 true true),
    ("search_jobs", mkResource "search_jobs" "Search Jobs" none 80 true true),
    ("action_scripts", mkResource "action_scripts" "Action Scripts" none 81 true true),
    ("ratelimit", mkResource "ratelimit" "Rate Limits" none 82 true true),
    ("ai", mkResource "ai" "AI" none 83 true false),
    ("re_patterns", mkResource "re_patterns" "Regex Patterns" none 84 true true),
    ("license", mkResource "license" "License" none 90 true false),
    ("templates", mkResource "templates" "Templates" none 22 true true),
    ("functions", mkResource "functions" "Functions" none 50 true true),
    ("reports", mkResource "reports" "Reports" none 41 true true),
    ("destinations", mkResource "destinations" "Destinations" none 32 true true),
    ("alert_folders", mkResource "alert_folders" "Alert Folders" none 30 true true),
    ("serviceaccounts", mkResource "serviceaccounts" "Service Accounts" none 72 true true),
    ("actionscripts", mkResource "actionscripts" "Action Scripts" none 81 true true),
    ("cipherkeys", mkResource "cipherkeys" "Cipher Keys" none 73 true true) ]

/-- is_valid_resource_type from src/openfga/model/resources.rs: key
membership in the RESOURCE_TYPES table. -/
def is_valid_resource_type (key : String) : Bool :=
  RESOURCE_TYPES.any (fun p => p.1 == key)

/-- parse_object from src/openfga/model/resources.rs: split at the
first colon. -/
def parse_object (object : String) : Option (String × String) :=
  splitOnceColon object

/-- is_all_org_entity from src/openfga/model/resources.rs. -/
def is_all_org_entity (entity org_id : String) : Bool :=
  entity == "_all_" ++ org_id || entity == "_all" || strStartsWith entity "_all"

example : strToLower "ROOT" = "root" := by decide
example : eqIgnoreAsciiCase "Root" "root" = true := by decide
example : splitOnceColon "logs:my_stream" = some ("logs", "my_stream") := by decide
example : splitOnceColon "no-colon" = none := by decide
example : is_all_org_entity "_all_default" "default" = true := by decide
example : is_all_org_entity "my_stream" "default" = false := by decide
example : is_valid_resource_type "templates" = true := by decide
example : is_valid_resource_type "bogus" = false := by decide

/-!
Tuple Store Gateway model (src/openfga/client.rs). The backing store is
a list of tuple keys. The gateway read either forwards a complete
filter to the backend, whose server-side behaviour is equality
filtering on the present fields (spec section 6), or, when the filter
lacks an object, reads everything and applies the in-memory retain
closure from OpenFGAClient::read. The gateway write is modelled by the
single request it issues and by the store transformation the backend
applies to it (deletes removed, then writes appended).
-/

/-- The in-memory retain closure from OpenFGAClient::read (client.rs):
each absent filter field matches everything, each present field must be
string-equal. -/
def memoryFilterMatch (f : TupleKeyFilter) (t : TupleKey) : Bool :=
  let user_match := match f.user with
    | none => true
    | some u => t.user == u
  let relation_match := match f.relation with
    | none => true
    | some r => t.relation == r
  let object_match := match f.object with
    | none => true
    | some o => t.object == o
  user_match && relation_match && object_match

/-- The server-side equality filter as the spec describes it: a tuple
passes when every present field of the filter is string-equal to the
corresponding field of the tuple key. Written from the words of the
spec for the refinement comparison. -/
def serverEqualityMatch (f : TupleKeyFilter) (t : TupleKey) : Bool :=
  decide ((∀ u ∈ f.user, t.user = u) ∧ (∀ r ∈ f.relation, t.relation = r) ∧
    (∀ o ∈ f.object, t.object = o))

/-- OpenFGAClient::read over a modelled store: with no filter, every
tuple; with a filter missing the object field, the unfiltered read
followed by the in-memory retain closure; otherwise the backend's
server-side equality filter. -/
def clientRead (store : List TupleKey) (filter : Option TupleKeyFilter) :
    List TupleKey :=
  match filter with
  | none => store
  | some f =>
    match f.object with
    | none => store.filter (memoryFilterMatch f)
    | some _ => store.filter (serverEqualityMatch f)

/-- The store transformation a successful OpenFGA write applies:
deleted tuple keys are removed, written tuple keys are added. -/
def applyWrite (store writes deletes : List TupleKey) : List TupleKey :=
  store.filter (fun t => !(decide (t ∈ deletes))) ++ writes

/-- Body of the write request OpenFGAClient::write posts: each list is
present in the payload only when non-empty (types.rs WriteRequest). -/
structure WriteRequestBody where
  writes : Option (List TupleKey)
  deletes : Option (List TupleKey)
deriving DecidableEq, Repr

/-- Gateway errors relevant to the modelled operations
(src/openfga/error.rs). -/
inductive FgaError where
  | storeNotFound
  | openFGA (msg : String)
deriving DecidableEq, Repr

/-- OpenFGAClient::write (client.rs lines 185-224), modelled by the
requests it issues: it fails fast without a request when no store id is
known, and otherwise posts exactly one write request, also when both
lists are empty. -/
def clientWrite (store_id : String) (writes deletes : List TupleKey) :
    Except FgaError (List WriteRequestBody) :=
  if store_id == "" then .error .storeNotFound
  else
    .ok [{ writes := if writes.isEmpty then none else some writes,
           deletes := if deletes.isEmpty then none else some deletes }]

/-- update_tuples from src/openfga/service/tuples.rs: returns success
without touching the client when both lists are empty, otherwise
delegates to the client write. -/
def update_tuples (store_id : String) (writes deletes : List TupleKey) :
    Except FgaError (List WriteRequestBody) :=
  if writes.isEmpty && deletes.isEmpty then .ok []
  else clientWrite store_id writes deletes

/-!
Permission checker model (src/openfga/service/checker.rs). The runtime
configuration is reduced to the enabled flag the checker consults; the
backend check endpoint is an explicit parameter returning either an
answer or a backend error.
-/

/-- The slice of OpenFGAConfig (src/openfga/config.rs) the permission
checker consults. -/
structure CheckerConfig where
  enabled : Bool
deriving DecidableEq, Repr

/-- is_allowed from src/openfga/service/checker.rs: disabled checking
allows, a root role allows before any parsing, a malformed object or
unknown resource type denies, and otherwise the check tuple is built
and delegated to the backend, whose error is converted to deny. -/
def is_allowed (config : CheckerConfig) (check : TupleKey → Except String Bool)
    (org_id user_id method object role : String) : Except String Bool :=
  if !config.enabled then .ok true
  else if eqIgnoreAsciiCase role "root" then .ok true
  else
    match parse_object object with
    | none => .ok false
    | some (resource_type, entity_id) =>
      if !is_valid_resource_type resource_type then .ok false
      else
        let is_list := is_all_org_entity entity_id org_id
        let permission := Permission.from_method method is_list
        let relation := permission.to_relation
        let user := user_type user_id
        let fga_object :=
          if is_list then resource_object_all org_id resource_type
          else resource_object org_id resource_type entity_id
        match check { user := user, relation := relation, object := fga_object } with
        | .ok allowed => .ok allowed
        | .error _ => .ok false

example :
    is_allowed { enabled := true } (fun _ => .ok true)
      "default" "alice@example.com" "GET" "logs:my_stream" "viewer" = .ok true := rfl
example :
    is_allowed { enabled := true } (fun _ => .error "down")
      "default" "alice@example.com" "GET" "logs:my_stream" "viewer" = .ok false := rfl
example :
    is_allowed { enabled := true } (fun _ => .error "down")
      "default" "alice@example.com" "GET" "nocolon" "ROOT" = .ok true := rfl

/-!
Role service (src/openfga/service/roles.rs), group service
(src/openfga/service/groups.rs) and tuple builders
(src/openfga/service/tuples.rs), each over the modelled store. Service
functions that mutate the store are split into the batch they send
(the writes or deletes list) and the store that results from applying
that batch.
-/

/-- Permission entry, from src/openfga/types.rs (PermissionEntry). -/
structure PermissionEntry where
  object : String
  permission : String
deriving DecidableEq, Repr

/-- permission_to_relation from src/openfga/service/roles.rs: frontend
permission name to ALLOW_* relation, defaulting to ALLOW_GET. -/
def permission_to_relation (permission : String) : String :=
  let p := strToLower permission
  if p == "allowall" then "ALLOW_ALL"
  else if p == "allowlist" then "ALLOW_LIST"
  else if p == "allowget" then "ALLOW_GET"
  else if p == "allowpost" then "ALLOW_POST"
  else if p == "allowput" then "ALLOW_PUT"
  else if p == "allowdelete" then "ALLOW_DELETE"
  else "ALLOW_GET"

/-- relation_to_permission from src/openfga/service/roles.rs: ALLOW_*
relation back to frontend permission name, defaulting to AllowGet. -/
def relation_to_permission (relation : String) : String :=
  if relation == "ALLOW_ALL" then "AllowAll"
  else if relation == "ALLOW_LIST" then "AllowList"
  else if relation == "ALLOW_GET" then "AllowGet"
  else if relation == "ALLOW_POST" then "AllowPost"
  else if relation == "ALLOW_PUT" then "AllowPut"
  else if relation == "ALLOW_DELETE" then "AllowDelete"
  else "AllowGet"

/-- SYSTEM_ROLES from src/openfga/service/roles.rs. -/
def SYSTEM_ROLES : List String := ["admin", "editor", "viewer"]

/-- list_roles from src/openfga/service/roles.rs: an unfiltered read,
keeping role names owned by the org through owningOrg tuples whose
object carries the org's role name pattern, excluding system roles; the
collected set is returned sorted (the Rust code collects into a hash
set and sorts the resulting vector). -/
def list_roles (store : List TupleKey) (org_id : String) : List String :=
  let rolePfx := "role:" ++ org_id ++ "_"
  let orgUser := "org:" ++ org_id
  let names := (clientRead store none).filterMap (fun t =>
    if t.relation == "owningOrg" && t.user == orgUser &&
        strStartsWith t.object rolePfx then
      match dropPrefixOpt t.object rolePfx with
      | some role_name =>
        if SYSTEM_ROLES.any (fun r => eqIgnoreAsciiCase r role_name) then none
        else some role_name
      | none => none
    else none)
  names.toFinset.sort (· ≤ ·)

/-- Role service errors used by the modelled functions
(src/openfga/error.rs). -/
inductive RoleError where
  | duplicateEntry
  | validation
deriving DecidableEq, Repr

/-- create_role from src/openfga/service/roles.rs, modelled by the
write batch it issues: a duplicate name (case-insensitive, against
list_roles) is a DuplicateEntry error, a system role name is a
Validation error, and otherwise one owningOrg tuple is written. -/
def create_role (store : List TupleKey) (org_id role_name : String) :
    Except RoleError (List TupleKey) :=
  let existing := list_roles store org_id
  if existing.any (fun r => eqIgnoreAsciiCase r role_name) then
    .error .duplicateEntry
  else if SYSTEM_ROLES.any (fun r => eqIgnoreAsciiCase r role_name) then
    .error .validation
  else
    .ok [{ user := org_type org_id, relation := "owningOrg",
           object := role_type org_id role_name }]

/-- delete_role from src/openfga/service/roles.rs, modelled by the
delete batch it issues: a system role name is a Validation error, and
otherwise every tuple whose object is the role plus every tuple whose
user is the role's has userset is deleted. -/
def delete_role (store : List TupleKey) (org_id role_name : String) :
    Except RoleError (List TupleKey) :=
  if SYSTEM_ROLES.any (fun r => eqIgnoreAsciiCase r role_name) then
    .error .validation
  else
    let role_object := role_type org_id role_name
    let role_tuples :=
      clientRead store (some { user := none, relation := none, object := some role_object })
    let role_has := role_object ++ "#has"
    let permission_tuples :=
      clientRead store (some { user := some role_has, relation := none, object := none })
    .ok (role_tuples ++ permission_tuples)

/-- The write batch built by add_role_permissions
(src/openfga/service/roles.rs): each entry's object is split at the
first colon (entries without a colon are skipped), a wildcard entity id
resolves to the type-wildcard object and any other entity id to the
concrete object, and the subject is always the role's has userset. -/
def add_role_permissions_writes (org_id role_name : String)
    (permissions : List PermissionEntry) : List TupleKey :=
  let role_has := role_type org_id role_name ++ "#has"
  permissions.filterMap (fun perm =>
    match splitOnceColon perm.object with
    | none => none
    | some (resource_type, entity_id) =>
      let relation := permission_to_relation perm.permission
      let resource :=
        if strStartsWith entity_id "_all" then resource_object_all org_id resource_type
        else resource_object org_id resource_type entity_id
      some { user := role_has, relation := relation, object := resource })

/-- add_role_permissions from src/openfga/service/roles.rs applied to
the modelled store: the built write batch is applied with no deletes. -/
def add_role_permissions (store : List TupleKey) (org_id role_name : String)
    (permissions : List PermissionEntry) : List TupleKey :=
  applyWrite store (add_role_permissions_writes org_id role_name permissions) []

/-- get_role_permissions from src/openfga/service/roles.rs: reads the
tuples whose user is the role's has userset, keeps those whose object
starts with the resource type followed by a colon, the org id and an
underscore, and rebuilds each entry, mapping the legacy all entity back
to the type-wildcard object. -/
def get_role_permissions (store : List TupleKey)
    (org_id role_name resource_type : String) : List PermissionEntry :=
  let role_has := role_type org_id role_name ++ "#has"
  let tuples :=
    clientRead store (some { user := some role_has, relation := none, object := none })
  let resPfx := resource_type ++ ":" ++ org_id ++ "_"
  (tuples.filter (fun t => strStartsWith t.object resPfx)).map (fun t =>
    let entity := (dropPrefixOpt t.object resPfx).getD t.object
    let permission := relation_to_permission t.relation
    let object :=
      if entity == "all" then resource_type ++ ":_all_" ++ org_id
      else resource_type ++ ":" ++ entity
    { object := object, permission := permission })

/-- role_to_fga_relation from src/openfga/service/tuples.rs: system
role name (any case) to the org-type relation, defaulting to
allowed_user. -/
def role_to_fga_relation (role : String) : String :=
  let r := strToLower role
  if r == "root" || r == "admin" then "admin"
  else if r == "editor" then "editor"
  else if r == "viewer" then "viewer"
  else if r == "user" || r == "serviceaccount" || r == "service_account" then
    "allowed_user"
  else "allowed_user"

/-- update_user_role from src/openfga/service/tuples.rs, modelled by
the write and delete batch of its single update_tuples call: no batch
at all when old and new roles map to the same relation, otherwise one
delete of the old relation tuple and one write of the new relation
tuple. -/
def update_user_role (org_id user_email old_role new_role : String) :
    List TupleKey × List TupleKey :=
  let user := user_type user_email
  let org := org_type org_id
  let old_relation := role_to_fga_relation old_role
  let new_relation := role_to_fga_relation new_role
  if old_relation == new_relation then ([], [])
  else ([{ user := user, relation := new_relation, object := org }],
        [{ user := user, relation := old_relation, object := org }])

/-- get_group_member_tuple from src/openfga/service/tuples.rs. -/
def get_group_member_tuple (org_id group_name user_email : String) : TupleKey :=
  { user := user_type user_email, relation := "member",
    object := group_type org_id group_name }

/-- get_group_role_tuple from src/openfga/service/tuples.rs: the group
object itself is the subject of the grp_assigned relation. -/
def get_group_role_tuple (org_id group_name role_name : String) : TupleKey :=
  { user := group_type org_id group_name, relation := "grp_assigned",
    object := role_type org_id role_name }

/-- get_user_crole_tuple from src/openfga/service/tuples.rs. -/
def get_user_crole_tuple (org_id role_name user_email : String) : TupleKey :=
  { user := user_type user_email, relation := "assigned",
    object := role_type org_id role_name }

/-- The delete batch built by delete_group
(src/openfga/service/groups.rs): every tuple whose object is the group,
plus every tuple whose user is the group object followed by the member
userset suffix. -/
def delete_group_deletes (store : List TupleKey) (org_id group_name : String) :
    List TupleKey :=
  let group_object := group_type org_id group_name
  let member_tuples :=
    clientRead store (some { user := none, relation := none, object := some group_object })
  let group_member := group_object ++ "#member"
  let role_tuples :=
    clientRead store (some { user := some group_member, relation := none, object := none })
  member_tuples ++ role_tuples

/-- delete_group from src/openfga/service/groups.rs applied to the
modelled store: the built delete batch is applied with no writes. -/
def delete_group (store : List TupleKey) (org_id group_name : String) :
    List TupleKey :=
  applyWrite store [] (delete_group_deletes store org_id group_name)

/-- get_user_groups from src/openfga/service/groups.rs: the member
tuples of the user, reduced to the group names of the requested org by
stripping the org's group name pattern. -/
def get_user_groups (store : List TupleKey) (org_id user_email : String) :
    List String :=
  let user := user_type user_email
  let tuples :=
    clientRead store (some { user := some user, relation := some "member", object := none })
  let groupPfx := "group:" ++ org_id ++ "_"
  tuples.filterMap (fun t => dropPrefixOpt t.object groupPfx)

/-- The directly assigned role names read by get_user_roles
(src/openfga/service/groups.rs): assigned tuples of the user, reduced
to role names of the requested org. -/
def direct_role_names (store : List TupleKey) (org_id user_email : String) :
    List String :=
  let user := user_type user_email
  let tuples :=
    clientRead store (some { user := some user, relation := some "assigned", object := none })
  tuples.filterMap (fun t => dropPrefixOpt t.object ("role:" ++ org_id ++ "_"))

/-- The role names granted to one group, as read inside the loop of
get_user_roles (src/openfga/service/groups.rs): grp_assigned tuples
whose user is the group object, reduced to role names of the requested
org. -/
def group_role_names (store : List TupleKey) (org_id group_name : String) :
    List String :=
  let group_object := group_type org_id group_name
  let tuples :=
    clientRead store
      (some { user := some group_object, relation := some "grp_assigned", object := none })
  tuples.filterMap (fun t => dropPrefixOpt t.object ("role:" ++ org_id ++ "_"))

/-- get_user_roles from src/openfga/service/groups.rs: the direct role
names seed a hash set, the loop over the user's groups inserts each
group's granted role names, and the collected set is returned sorted. -/
def get_user_roles (store : List TupleKey) (org_id user_email : String) :
    List String :=
  let roles0 : Finset String := (direct_role_names store org_id user_email).toFinset
  let roles := (get_user_groups store org_id user_email).foldl
    (fun acc g => acc ∪ (group_role_names store org_id g).toFinset) roles0
  roles.sort (· ≤ ·)

example :
    add_role_permissions [] "default" "developer"
      [{ object := "logs:_all_default", permission := "AllowGet" }] =
    [{ user := "role:default_developer#has", relation := "ALLOW_GET",
       object := "logs:_all_default" }] := rfl

example :
    get_role_permissions
      [{ user := "role:default_developer#has", relation := "ALLOW_GET",
         object := "logs:_all_default" }]
      "default" "developer" "logs" = [] := rfl

example :
    delete_group
      [{ user := "org:default", relation := "owningOrg", object := "group:default_devs" },
       get_group_member_tuple "default" "devs" "alice@example.com",
       get_group_role_tuple "default" "devs" "developer"]
      "default" "devs" =
    [get_group_role_tuple "default" "devs" "developer"] := rfl


/-!
Helper lemmas shared by the theorems below.
-/

lemma applyWrite_nil_nil (store : List TupleKey) : applyWrite store [] [] = store := by
  simp [applyWrite]

lemma role_to_fga_relation_ne_org_context (role : String) :
    role_to_fga_relation role ≠ "org_context" := by
  unfold role_to_fga_relation
  dsimp only
  split_ifs <;> decide

/-- C1: starting from a store with no permission tuples for role
developer in org default, add_role_permissions of AllowGet on
logs:_all_default writes the wildcard permission tuple, but the
subsequent get_role_permissions for resource type logs returns the
empty list rather than the single expected entry: the reader filters
stored objects by the pattern logs colon default underscore, which the
written object logs:_all_default does not match. This evaluates the
code at the failing input of the round-trip scenario. -/
theorem c1_roundtrip_get_role_permissions_empty :
    add_role_permissions [] "default" "developer"
      [{ object := "logs:_all_default", permission := "AllowGet" }] =
      [{ user := "role:default_developer#has", relation := "ALLOW_GET",
         object := "logs:_all_default" }] ∧
    get_role_permissions
      (add_role_permissions [] "default" "developer"
        [{ object := "logs:_all_default", permission := "AllowGet" }])
      "default" "developer" "logs" = [] :=
  ⟨rfl, rfl⟩

/-- C2: on a store holding the group's owningOrg tuple, one membership
tuple and one role-grant tuple (exactly as written by
get_group_role_tuple), delete_group removes the first two but leaves
the role-grant tuple behind: its second read filters on the user
group:default_devs#member, while the writer stores the grant with the
bare group object as user, so the grant never matches. This evaluates
the code at the failing input. -/
theorem c2_delete_group_leaves_role_grant :
    delete_group
      [{ user := "org:default", relation := "owningOrg", object := "group:default_devs" },
       get_group_member_tuple "default" "devs" "alice@example.com",
       get_group_role_tuple "default" "devs" "developer"]
      "default" "devs" =
    [get_group_role_tuple "default" "devs" "developer"] :=
  rfl

/-- C10: is_valid_resource_type accepts the eight legacy alias keys, and
an is_allowed request naming an alias type passes resource-type
validation and reaches the backend check instead of being denied as
unknown. -/
theorem c10_legacy_alias_resource_types :
    (["templates", "functions", "reports", "destinations", "alert_folders",
      "serviceaccounts", "actionscripts", "cipherkeys"].all
        is_valid_resource_type) = true ∧
    is_allowed { enabled := true } (fun _ => .ok true) "default"
      "alice@example.com" "GET" "templates:tpl1" "viewer" = .ok true :=
  ⟨by decide, rfl⟩

/-- C5 counterexample: OpenFGAClient::write called with both lists
empty still issues one HTTP write request whose payload has neither
writes nor deletes; it is not the request-free no-op the claim states
for the gateway write operation. -/
theorem c5_counterexample_client_write_empty_issues_request :
    clientWrite "store1" [] [] = .ok [{ writes := none, deletes := none }] ∧
    clientWrite "store1" [] [] ≠ .ok [] := by
  refine ⟨rfl, fun h => ?_⟩
  injection h with h1
  exact absurd h1 (by simp)

/-- C5 amended: the empty-batch no-op guard lives one layer up, in the
service wrapper update_tuples: with both lists empty it returns success
without issuing any request, for every store id, and the resulting
(empty) batch leaves every store unchanged. The client-level write
itself issues a request even for empty lists. -/
theorem c5_amended_update_tuples_empty_noop :
    ∀ (store_id : String) (store : List TupleKey),
      update_tuples store_id [] [] = .ok [] ∧ applyWrite store [] [] = store := by
  intro store_id store
  exact ⟨rfl, applyWrite_nil_nil store⟩

/-- C4: whenever the role equals root under ASCII case-insensitive
comparison, is_allowed returns Ok true for every configuration, every
org, user, method and object string (malformed ones included), and its
result does not depend on the backend check function: the bypass is
decided before the object is parsed and no backend check is
consulted. -/
theorem c4_root_bypass :
    ∀ (config : CheckerConfig) (check check2 : TupleKey → Except String Bool)
      (org_id user_id method object role : String),
      eqIgnoreAsciiCase role "root" = true →
      is_allowed config check org_id user_id method object role = .ok true ∧
      is_allowed config check org_id user_id method object role =
        is_allowed config check2 org_id user_id method object role := by
  intro config check check2 org_id user_id method object role h
  unfold is_allowed
  cases hc : config.enabled <;> simp [hc, h]

/-- C4 witness: the root bypass at a concrete malformed object with the
checking enabled and an error-returning backend. -/
theorem c4_root_bypass_witness :
    is_allowed { enabled := true } (fun _ => .error "down") "default"
      "alice@example.com" "DELETE" "not-an-object" "ROOT" = .ok true :=
  (c4_root_bypass { enabled := true } (fun _ => .error "down") (fun _ => .ok false)
    "default" "alice@example.com" "DELETE" "not-an-object" "ROOT" (by decide)).1

/-- C3: with checking enabled and a non-root role, whenever the backend
check endpoint never returns an answer (every call is an error),
is_allowed returns Ok false: the backend error is converted to a deny
decision and never propagated to the caller. -/
theorem c3_backend_error_is_deny :
    ∀ (config : CheckerConfig) (check : TupleKey → Except String Bool)
      (org_id user_id method object role : String),
      config.enabled = true →
      eqIgnoreAsciiCase role "root" = false →
      (∀ tk b, check tk ≠ .ok b) →
      is_allowed config check org_id user_id method object role = .ok false := by
  intro config check org_id user_id method object role hen hroot herr
  unfold is_allowed
  simp only [hen, hroot, Bool.not_true, Bool.false_eq_true, if_false]
  split
  · rfl
  · split
    · rfl
    · split
      · rename_i heq
        exact absurd heq (herr _ _)
      · rfl

/-- C3 witness: a concrete deny on backend failure for a viewer-role
GET on a logs stream. -/
theorem c3_backend_error_is_deny_witness :
    is_allowed { enabled := true } (fun _ => .error "down") "default"
      "alice@example.com" "GET" "logs:stream1" "viewer" = .ok false :=
  c3_backend_error_is_deny { enabled := true } (fun _ => .error "down") "default"
    "alice@example.com" "GET" "logs:stream1" "viewer" rfl (by decide)
    (fun _ _ h => Except.noConfusion h)

/-- C9: update_user_role issues no batch at all when the old and new
roles map to the same relation; otherwise its single update_tuples call
deletes exactly the old relation tuple and writes exactly the new
relation tuple; and in both cases applying the batch leaves the user's
org_context tuple in the store. -/
theorem c9_update_user_role_delta :
    ∀ (org_id user_email old_role new_role : String),
      (role_to_fga_relation old_role = role_to_fga_relation new_role →
        update_user_role org_id user_email old_role new_role = ([], [])) ∧
      (role_to_fga_relation old_role ≠ role_to_fga_relation new_role →
        update_user_role org_id user_email old_role new_role =
          ([{ user := user_type user_email, relation := role_to_fga_relation new_role,
              object := org_type org_id }],
           [{ user := user_type user_email, relation := role_to_fga_relation old_role,
              object := org_type org_id }])) ∧
      (∀ (store : List TupleKey),
        ({ user := user_type user_email, relation := "org_context",
           object := org_type org_id } : TupleKey) ∈ store →
        ({ user := user_type user_email, relation := "org_context",
           object := org_type org_id } : TupleKey) ∈
          applyWrite store (update_user_role org_id user_email old_role new_role).1
            (update_user_role org_id user_email old_role new_role).2) := by
  intro org_id user_email old_role new_role
  refine ⟨fun h => ?_, fun h => ?_, fun store hmem => ?_⟩
  · unfold update_user_role
    simp [h]
  · unfold update_user_role
    simp [h]
  · unfold update_user_role
    dsimp only
    split
    · rw [applyWrite_nil_nil]
      exact hmem
    · apply List.mem_append_left
      rw [List.mem_filter]
      refine ⟨hmem, ?_⟩
      simp only [List.mem_singleton, Bool.not_eq_true', decide_eq_false_iff_not]
      intro heq
      have hrel := congrArg TupleKey.relation heq
      exact role_to_fga_relation_ne_org_context old_role (by simpa using hrel.symm)

/-- C9 witness: a concrete role change Admin to Editor produces the
one-delete-one-write batch, and root to Admin (same relation) produces
no batch. -/
theorem c9_update_user_role_delta_witness :
    update_user_role "default" "alice@example.com" "Admin" "Editor" =
      ([{ user := "user:alice@example.com", relation := "editor", object := "org:default" }],
       [{ user := "user:alice@example.com", relation := "admin", object := "org:default" }]) ∧
    update_user_role "default" "alice@example.com" "root" "Admin" = ([], []) := by
  constructor
  · exact ((c9_update_user_role_delta "default" "alice@example.com" "Admin" "Editor").2.1
      (by decide)).trans (by decide)
  · exact (c9_update_user_role_delta "default" "alice@example.com" "root" "Admin").1
      (by decide)

/-- C7: when the filter omits the object field, the gateway read (the
unfiltered paginated read followed by the in-memory retain closure)
returns exactly the tuples every present filter field matches by string
equality: the fallback coincides with the server-side three-field
equality filter applied to the same tuple set. -/
theorem c7_memory_fallback_matches_server_filter :
    ∀ (tuples : List TupleKey) (f : TupleKeyFilter),
      f.object = none →
      clientRead tuples (some f) = tuples.filter (serverEqualityMatch f) := by
  intro tuples f h
  unfold clientRead
  dsimp only
  rw [h]
  apply List.filter_congr
  intro t _
  unfold memoryFilterMatch serverEqualityMatch
  cases hu : f.user <;> cases hr : f.relation <;>
    (rw [h]; dsimp only; rw [Bool.eq_iff_iff]; simp [beq_iff_eq])

/-- C7 witness: the fallback read at a concrete user-only filter over a
two-tuple store. -/
theorem c7_memory_fallback_matches_server_filter_witness :
    clientRead
      [{ user := "user:alice@example.com", relation := "assigned",
         object := "role:default_developer" },
       { user := "user:bob@example.com", relation := "assigned",
         object := "role:default_developer" }]
      (some { user := some "user:alice@example.com", relation := none, object := none }) =
    List.filter
      (serverEqualityMatch
        { user := some "user:alice@example.com", relation := none, object := none })
      [{ user := "user:alice@example.com", relation := "assigned",
         object := "role:default_developer" },
       { user := "user:bob@example.com", relation := "assigned",
         object := "role:default_developer" }] :=
  c7_memory_fallback_matches_server_filter _ _ rfl

lemma list_roles_excludes_system {store : List TupleKey} {org_id r : String}
    (h : r ∈ list_roles store org_id) :
    SYSTEM_ROLES.any (fun s => eqIgnoreAsciiCase s r) = false := by
  unfold list_roles at h
  dsimp only at h
  rw [Finset.mem_sort, List.mem_toFinset, List.mem_filterMap] at h
  obtain ⟨t, _, ht⟩ := h
  split at ht
  · split at ht
    · rename_i role_name heq
      split at ht
      · exact absurd ht (by simp)
      · rename_i hnotsys
        rw [Option.some.injEq] at ht
        subst ht
        simpa using hnotsys
    · exact absurd ht (by simp)
  · exact absurd ht (by simp)

/-- C6: for every store and every role name that matches a system role
name case-insensitively, create_role and delete_role both fail with a
Validation error and list_roles never includes the name. -/
theorem c6_system_roles_protected :
    ∀ (store : List TupleKey) (org_id name : String),
      SYSTEM_ROLES.any (fun r => eqIgnoreAsciiCase r name) = true →
      create_role store org_id name = .error .validation ∧
      delete_role store org_id name = .error .validation ∧
      name ∉ list_roles store org_id := by
  intro store org_id name h
  have hdup : (list_roles store org_id).any (fun r => eqIgnoreAsciiCase r name) = false := by
    rw [List.any_eq_false]
    intro r hr habs
    rw [List.any_eq_true] at h
    obtain ⟨s, hs, hsn⟩ := h
    have hsr : eqIgnoreAsciiCase s r = true := by
      unfold eqIgnoreAsciiCase at hsn habs ⊢
      rw [beq_iff_eq] at hsn habs ⊢
      exact hsn.trans habs.symm
    have hany : SYSTEM_ROLES.any (fun x => eqIgnoreAsciiCase x r) = true :=
      List.any_eq_true.mpr ⟨s, hs, hsr⟩
    rw [list_roles_excludes_system hr] at hany
    exact Bool.noConfusion hany
  refine ⟨?_, ?_, ?_⟩
  · unfold create_role
    simp [hdup, h]
  · unfold delete_role
    simp [h]
  · intro hmem
    have hs := list_roles_excludes_system hmem
    rw [h] at hs
    exact Bool.noConfusion hs

/-- C6 witness: the protections at the concrete name Admin (a
case-insensitive match of the system role admin) on the empty store. -/
theorem c6_system_roles_protected_witness :
    create_role [] "default" "Admin" = .error .validation ∧
    delete_role [] "default" "Admin" = .error .validation ∧
    "Admin" ∉ list_roles [] "default" :=
  c6_system_roles_protected [] "default" "Admin" (by decide)

/-!
Supporting lemmas for the two-hop role resolution claim.
-/

lemma string_append_data (a b : String) : (a ++ b).data = a.data ++ b.data := by
  cases a
  cases b
  rfl

lemma dropPrefixOpt_eq_some {s p r : String} :
    dropPrefixOpt s p = some r ↔ s = p ++ r := by
  constructor
  · intro h
    unfold dropPrefixOpt at h
    split at h
    · rename_i hpre
      rw [Option.some.injEq] at h
      subst h
      obtain ⟨t, ht⟩ := List.isPrefixOf_iff_prefix.mp hpre
      cases s with
      | mk sd =>
        cases p with
        | mk pd =>
          dsimp at ht ⊢
          have hd : sd = pd ++ sd.drop pd.length := by
            rw [← ht, List.drop_left]
          exact congrArg String.mk hd
    · exact absurd h (by simp)
  · intro h
    subst h
    unfold dropPrefixOpt
    have hpre : p.data.isPrefixOf (p ++ r).data := by
      rw [string_append_data]
      exact List.isPrefixOf_iff_prefix.mpr (List.prefix_append p.data r.data)
    rw [if_pos hpre]
    rw [Option.some.injEq]
    cases p with
    | mk pd =>
      cases r with
      | mk rd =>
        show String.mk ((String.mk pd ++ String.mk rd).data.drop pd.length) = String.mk rd
        apply congrArg String.mk
        rw [string_append_data]
        dsimp
        rw [List.drop_left]

lemma mem_read_strip {store : List TupleKey} {u rel pfx r : String} :
    r ∈ (clientRead store
        (some { user := some u, relation := some rel, object := none })).filterMap
        (fun t => dropPrefixOpt t.object pfx) ↔
      ({ user := u, relation := rel, object := pfx ++ r } : TupleKey) ∈ store := by
  unfold clientRead
  dsimp only
  rw [List.mem_filterMap]
  constructor
  · rintro ⟨t, htmem, hdrop⟩
    rw [List.mem_filter] at htmem
    obtain ⟨hts, hmatch⟩ := htmem
    rw [dropPrefixOpt_eq_some] at hdrop
    unfold memoryFilterMatch at hmatch
    dsimp only at hmatch
    rw [Bool.and_eq_true, Bool.and_eq_true] at hmatch
    obtain ⟨⟨hu, hr⟩, -⟩ := hmatch
    rw [beq_iff_eq] at hu hr
    cases t with
    | mk tu tr tob =>
      dsimp at hu hr hdrop
      subst hu
      subst hr
      subst hdrop
      exact hts
  · intro hmem
    refine ⟨{ user := u, relation := rel, object := pfx ++ r }, ?_, ?_⟩
    · rw [List.mem_filter]
      refine ⟨hmem, ?_⟩
      unfold memoryFilterMatch
      simp
    · rw [dropPrefixOpt_eq_some]

lemma mem_direct_role_names {store : List TupleKey} {org_id user_email r : String} :
    r ∈ direct_role_names store org_id user_email ↔
      ({ user := user_type user_email, relation := "assigned",
         object := "role:" ++ org_id ++ "_" ++ r } : TupleKey) ∈ store := by
  unfold direct_role_names
  exact mem_read_strip

lemma mem_group_role_names {store : List TupleKey} {org_id group_name r : String} :
    r ∈ group_role_names store org_id group_name ↔
      ({ user := group_type org_id group_name, relation := "grp_assigned",
         object := "role:" ++ org_id ++ "_" ++ r } : TupleKey) ∈ store := by
  unfold group_role_names
  exact mem_read_strip

lemma mem_get_user_groups {store : List TupleKey} {org_id user_email g : String} :
    g ∈ get_user_groups store org_id user_email ↔
      ({ user := user_type user_email, relation := "member",
         object := "group:" ++ org_id ++ "_" ++ g } : TupleKey) ∈ store := by
  unfold get_user_groups
  exact mem_read_strip

lemma mem_foldl_union {α β : Type} [DecidableEq β] (f : α → Finset β) (x : β) :
    ∀ (l : List α) (init : Finset β),
      x ∈ l.foldl (fun acc g => acc ∪ f g) init ↔ x ∈ init ∨ ∃ g ∈ l, x ∈ f g := by
  intro l
  induction l with
  | nil => intro init; simp
  | cons a l ih =>
    intro init
    rw [List.foldl_cons, ih]
    simp [Finset.mem_union, or_assoc]

/-- What the spec calls a direct role assignment: the user's assigned
tuple for the org's role object is in the store. -/
def specDirectlyAssigned (store : List TupleKey) (org_id user_email r : String) : Prop :=
  ({ user := "user:" ++ user_email, relation := "assigned",
     object := "role:" ++ org_id ++ "_" ++ r } : TupleKey) ∈ store

/-- What the spec calls group membership: the user's member tuple for
the org's group object is in the store. -/
def specMemberOfGroup (store : List TupleKey) (org_id user_email g : String) : Prop :=
  ({ user := "user:" ++ user_email, relation := "member",
     object := "group:" ++ org_id ++ "_" ++ g } : TupleKey) ∈ store

/-- What the spec calls a role granted to a group: the group object's
grp_assigned tuple for the org's role object is in the store. -/
def specRoleGrantedToGroup (store : List TupleKey) (org_id g r : String) : Prop :=
  ({ user := "group:" ++ org_id ++ "_" ++ g, relation := "grp_assigned",
     object := "role:" ++ org_id ++ "_" ++ r } : TupleKey) ∈ store

/-- C8: get_user_roles returns exactly the role names that are either
directly assigned to the user or granted to some group the user is a
member of (the two-hop resolution), and the returned list is sorted in
ascending order with duplicates removed. -/
theorem c8_get_user_roles_two_hop :
    ∀ (store : List TupleKey) (org_id user_email r : String),
      (r ∈ get_user_roles store org_id user_email ↔
        specDirectlyAssigned store org_id user_email r ∨
        ∃ g, specMemberOfGroup store org_id user_email g ∧
          specRoleGrantedToGroup store org_id g r) ∧
      (get_user_roles store org_id user_email).Sorted (· ≤ ·) ∧
      (get_user_roles store org_id user_email).Nodup := by
  intro store org_id user_email r
  refine ⟨?_, ?_, ?_⟩
  · unfold get_user_roles
    dsimp only
    rw [Finset.mem_sort,
      mem_foldl_union (fun g => (group_role_names store org_id g).toFinset) r
        (get_user_groups store org_id user_email)
        ((direct_role_names store org_id user_email).toFinset)]
    simp only [List.mem_toFinset, mem_direct_role_names, mem_get_user_groups,
      mem_group_role_names, user_type, group_type, specDirectlyAssigned,
      specMemberOfGroup, specRoleGrantedToGroup]
  · unfold get_user_roles
    dsimp only
    exact Finset.sort_sorted _ _
  · unfold get_user_roles
    dsimp only
    exact Finset.sort_nodup _ _
